import Mathlib

/-!
Verification of the fiindo-recruitment-challange ETL pipeline core.

This file gives a shallow embedding of the four core modules of the
repository (`api_client.py`, `fetcher.py`, `calculations.py`,
`db_writer.py`) and proves or refutes the behavioural claims C1-C10 made
about them.

Modelling conventions:
* JSON bodies decoded from HTTP responses are modelled by `PyVal`
  (null / number / string / list / string-keyed object); numbers are
  rationals.
* Exceptions are explicit: functions that can let a Python exception
  escape return `Except` (or a dedicated constructor such as
  `CalcResult.raised`); `try/except`-guarded blocks that convert every
  exception into `None` are total functions into `Option`.
* Network I/O is a parameter: the calculator takes the three decoded
  responses as arguments, the API client takes the per-attempt outcome
  of the HTTP GET as a function of the attempt number, the fetcher takes
  the per-symbol `/general` outcome as a function of the symbol.
* The SQLAlchemy tables are association lists inside a `DB` record;
  `INSERT` is an append and `DELETE` empties a table.
-/

namespace Fiindo

/-- A decoded JSON value as produced by `response.json()` in CPython:
`None`, a number (modelled as a rational), a string, a list, or a
string-keyed object.  Booleans do not occur in any payload consumed by
the core pipeline and are not modelled. -/
inductive PyVal where
  | none : PyVal
  | num : ℚ → PyVal
  | str : String → PyVal
  | list : List PyVal → PyVal
  | dict : List (String × PyVal) → PyVal

/-- Python truthiness of a decoded JSON value: `None`, `0`, `""`, `[]`
and an empty object are falsy, everything else is truthy. -/
def pyTruthy : PyVal → Bool
  | .none => false
  | .num q => q != 0
  | .str s => !s.isEmpty
  | .list xs => !xs.isEmpty
  | .dict kvs => !kvs.isEmpty

/-- `d.get(k)`: the value stored under string key `k` of an object,
`Option.none` when the key is absent (Python dict keys are unique; the
first binding wins in this association-list model). -/
def lookupKey (kvs : List (String × PyVal)) (k : String) : Option PyVal :=
  (kvs.find? (fun p => p.1 == k)).map (fun p => p.2)

/-- `d.get(k, default)`. -/
def lookupKeyD (kvs : List (String × PyVal)) (k : String) (d : PyVal) : PyVal :=
  (lookupKey kvs k).getD d

/-- The two exception classes the embedded code distinguishes:
`KeyError` (caught by some call sites) and everything else
(`TypeError` / `AttributeError` / `ValueError` / `IndexError`), which
the relevant call sites do not catch individually. -/
inductive PyErr where
  | keyError
  | typeError

/-- `v[k]` for a string key `k`: the stored value for an object that has
the key, `KeyError` for an object that lacks it, `TypeError` for any
non-object (indexing `None`, a number, a list or a string with a string
key raises `TypeError` in CPython). -/
def pySubscript (v : PyVal) (k : String) : Except PyErr PyVal :=
  match v with
  | .dict kvs =>
    match lookupKey kvs k with
    | some x => .ok x
    | Option.none => .error .keyError
  | _ => .error .typeError

/-- `v[k]` inside a `try/except Exception` block: every failure is about
to be swallowed, so only success matters. -/
def pySubscriptOpt (v : PyVal) (k : String) : Option PyVal :=
  (pySubscript v k).toOption

/-- Numeric value of a list of decimal digit characters. -/
def natOfDigits (cs : List Char) : Nat :=
  cs.foldl (fun acc c => 10 * acc + (c.toNat - 48)) 0

/-- Parse an unsigned decimal literal, optionally with a fractional
part, as CPython `float()` does on such literals: `"12"`, `"12.5"`,
`"12."` and `".5"` parse, anything else fails. -/
def parseUnsignedFloat (cs : List Char) : Option ℚ :=
  let ip := cs.takeWhile Char.isDigit
  let rest := cs.dropWhile Char.isDigit
  match rest with
  | [] => if ip.isEmpty then Option.none else some (natOfDigits ip : ℚ)
  | c :: frac =>
    if c == '.' && frac.all Char.isDigit && !(ip.isEmpty && frac.isEmpty) then
      some ((natOfDigits ip : ℚ) + (natOfDigits frac : ℚ) / (10 : ℚ) ^ frac.length)
    else Option.none

/-- CPython `float(s)` on a string: an optional sign followed by a
decimal literal.  (Surrounding whitespace, exponents and `inf`/`nan`
spellings are not modelled; no claim involves them.) -/
def parseFloat? (s : String) : Option ℚ :=
  match s.toList with
  | [] => Option.none
  | c :: cs =>
    if c == '-' then (parseUnsignedFloat cs).map (fun q => -q)
    else if c == '+' then parseUnsignedFloat cs
    else parseUnsignedFloat (c :: cs)

/-- CPython `float(v)`: numbers pass through, strings are parsed,
`float(None)` / `float(list)` / `float(dict)` raise `TypeError` (failure
here, `Option.none`, stands for that raise; each call site decides
whether the raise is caught). -/
def pyFloat? : PyVal → Option ℚ
  | .num q => some q
  | .str s => parseFloat? s
  | _ => Option.none

/-- Code-point lexicographic comparison of character lists, as CPython
compares strings. -/
def strCmpCore : List Char → List Char → Ordering
  | [], [] => .eq
  | [], _ :: _ => .lt
  | _ :: _, [] => .gt
  | a :: as, b :: bs =>
    if a.toNat < b.toNat then .lt
    else if b.toNat < a.toNat then .gt
    else strCmpCore as bs

/-- Comparison of two sort keys as performed by `list.sort`:
`some o` is the CPython comparison result, `Option.none` is a raised
`TypeError`.  Numbers and strings compare as in CPython; comparing
`None`, objects, or values of different types raises.  (CPython would
compare two list-valued keys elementwise; list keys are modelled as
incomparable — no theorem below sorts rows whose date field is a
list.) -/
def pyCompare : PyVal → PyVal → Option Ordering
  | .num a, .num b =>
    some (if a < b then Ordering.lt else if b < a then Ordering.gt else Ordering.eq)
  | .str a, .str b => some (strCmpCore a.toList b.toList)
  | _, _ => Option.none

def kDate : String := "date"
def kPeriod : String := "period"
def kRevenue : String := "revenue"
def kNetIncome : String := "netIncome"
def kEps : String := "eps"
def kTotalDebt : String := "totalDebt"
def kTotalEquity : String := "totalEquity"
def kClose : String := "close"
def kStockprice : String := "stockprice"
def kFundamentals : String := "fundamentals"
def kFinancials : String := "financials"
def kData : String := "data"
def kIncomeStatement : String := "income_statement"
def kBalanceSheetStatement : String := "balance_sheet_statement"
def kSymbols : String := "symbols"
def kProfile : String := "profile"
def kIndustry : String := "industry"
def kCompanyName : String := "companyName"
def kExchange : String := "exchange"
def kQ : String := "Q"
def kFY : String := "FY"

/-- The sort key `x.get("date", "")` used by both sorts in
`calculate_all`.  Rows reaching a sort are always objects (the
preceding list comprehension already dereferenced them); for a
non-object the key is modelled as `None`, which makes every comparison
on it raise, as `x.get` itself would. -/
def dateKeyOf (row : PyVal) : PyVal :=
  match row with
  | .dict kvs => lookupKeyD kvs kDate (.str (""))
  | _ => .none

/-- Boolean guard of the descending insertion: `x` may sit in front of
`y` iff the key of `x` is not smaller than the key of `y`.  Ties keep
the earlier element first, which is exactly the stability guarantee of
`list.sort(..., reverse=True)`. -/
def dateGeBool (a b : PyVal) : Bool :=
  pyCompare (dateKeyOf a) (dateKeyOf b) != some Ordering.lt

def insertByDateDesc (x : PyVal) : List PyVal → List PyVal
  | [] => [x]
  | y :: ys => if dateGeBool x y then x :: y :: ys else y :: insertByDateDesc x ys

/-- Stable descending sort by the date key.  CPython's Timsort with
`reverse=True` is also a stable descending sort by the same key, and a
stable sort by a total key order is unique, so the two agree whenever
all keys are mutually comparable. -/
def sortByDateDesc : List PyVal → List PyVal
  | [] => []
  | x :: xs => insertByDateDesc x (sortByDateDesc xs)

/-- All date keys of the list are pairwise comparable. -/
def pairwiseComparableBy : List PyVal → Bool
  | [] => true
  | x :: xs =>
    xs.all (fun y => (pyCompare (dateKeyOf x) (dateKeyOf y)).isSome) &&
      pairwiseComparableBy xs

/-- `rows.sort(key=lambda x: x.get("date", ""), reverse=True)`: the
stable descending sort when all keys are mutually comparable, a raised
`TypeError` otherwise.  (Timsort does not necessarily compare every
pair, so on exotic mixed-type keys CPython may occasionally finish
where this model raises; every theorem below sorts rows whose date
keys are all strings, where the model is exact.) -/
def pySortByDateDesc (rows : List PyVal) : Except Unit (List PyVal) :=
  if pairwiseComparableBy rows then .ok (sortByDateDesc rows) else .error ()

/-- Body of the list comprehensions
`[row for row in data if pred(row)]` of `calculate_all`: each row is
dereferenced with `row.get`, so a non-object row raises
`AttributeError`, which nothing catches. -/
def rowsFilter (pred : List (String × PyVal) → Bool) :
    List PyVal → Except Unit (List PyVal)
  | [] => .ok []
  | .dict kvs :: rest => do
    let tail ← rowsFilter pred rest
    .ok (if pred kvs then .dict kvs :: tail else tail)
  | _ :: _ => .error ()

/-- The full comprehension, including iteration over the `data` value
itself: iterating a number or `None` raises `TypeError`; iterating a
nonempty string or object yields strings (characters / keys) on which
`row.get` raises `AttributeError`; an empty string or object yields an
empty result. -/
def pyFilterRows (pred : List (String × PyVal) → Bool) :
    PyVal → Except Unit (List PyVal)
  | .list rows => rowsFilter pred rows
  | .str s => if s.isEmpty then .ok [] else .error ()
  | .dict kvs => if kvs.isEmpty then .ok [] else .error ()
  | _ => .error ()

/-- Quarter filter `str(row.get("period", "")).startswith("Q")`:
`str()` of `None`, a number, a list or an object begins with `N`, a
digit, `-`, `[` or a brace — never with `Q` — so only a genuine string
period can match. -/
def isQuarterRow (kvs : List (String × PyVal)) : Bool :=
  match lookupKeyD kvs kPeriod (.str ("")) with
  | .str s => kQ.toList.isPrefixOf s.toList
  | _ => false

/-- Full-year filter `row.get("period") == "FY"`: Python `==` between a
string and a missing value, `None`, a number, a list or an object is
`False` without raising. -/
def isFYRow (kvs : List (String × PyVal)) : Bool :=
  match lookupKey kvs kPeriod with
  | some (.str s) => s == kFY
  | _ => false

/-- `resp["fundamentals"]["financials"][stmt]["data"]` — the nested
extraction used for both statements.  The call sites catch `KeyError`
only, so a `TypeError` (some level is not an object) escapes. -/
def extractStatementData (v : PyVal) (stmt : String) : Except PyErr PyVal := do
  let a ← pySubscript v kFundamentals
  let b ← pySubscript a kFinancials
  let c ← pySubscript b stmt
  pySubscript c kData

/-- Substring test on character lists, for Python `sub in s` on
strings. -/
def containsSub (sub : List Char) : List Char → Bool
  | [] => sub.isEmpty
  | c :: cs => sub.isPrefixOf (c :: cs) || containsSub sub cs

/-- Python `s in v` for a string `s`: key test on an object, `==`
membership on a list (only an equal string matches), substring test on
a string, `TypeError` on a number or `None`.  Used for
`"stockprice" not in eod`, which sits OUTSIDE any `try` block. -/
def pyContains (v : PyVal) (s : String) : Except Unit Bool :=
  match v with
  | .dict kvs => .ok (kvs.any (fun p => p.1 == s))
  | .list xs =>
    .ok (xs.any (fun x => match x with | .str t => t == s | _ => false))
  | .str t => .ok (containsSub s.toList t.toList)
  | _ => .error ()

/-- `float(row["revenue"])` inside a `try` block. -/
def revenueOf (r : PyVal) : Option ℚ := pySubscriptOpt r kRevenue >>= pyFloat?

/-- `float(row["netIncome"])` inside a `try` block. -/
def niOf (r : PyVal) : Option ℚ := pySubscriptOpt r kNetIncome >>= pyFloat?

/-- `float(row["eps"])` inside a `try` block. -/
def epsOf (r : PyVal) : Option ℚ := pySubscriptOpt r kEps >>= pyFloat?

/-- `float(row["totalDebt"])` inside a `try` block. -/
def totalDebtOf (r : PyVal) : Option ℚ := pySubscriptOpt r kTotalDebt >>= pyFloat?

/-- `float(row["totalEquity"])` inside a `try` block. -/
def totalEquityOf (r : PyVal) : Option ℚ := pySubscriptOpt r kTotalEquity >>= pyFloat?

/-- The `revenue_growth` try-block of `calculate_all`: any exception
(missing key, non-numeric value) and a zero previous-quarter revenue
all leave the field at `None`. -/
def computeRevenueGrowth (q1 q2 : PyVal) : Option ℚ :=
  match revenueOf q1, revenueOf q2 with
  | some r1, some r2 => if r2 ≠ 0 then some ((r1 - r2) / r2) else Option.none
  | _, _ => Option.none

/-- The `net_income_ttm` try-block: the sum of the four most recent
quarterly net incomes, `None` if any of the four is missing or
non-numeric. -/
def computeNetIncomeTTM (q1 q2 q3 q4 : PyVal) : Option ℚ :=
  match niOf q1, niOf q2, niOf q3, niOf q4 with
  | some a, some b, some c, some d => some (a + b + c + d)
  | _, _, _, _ => Option.none

/-- The `debt_ratio` try-block: `totalDebt / totalEquity` of the most
recent full-year row, `None` on any exception or zero equity. -/
def computeDebt (fy : PyVal) : Option ℚ :=
  match totalDebtOf fy, totalEquityOf fy with
  | some d, some e => if e ≠ 0 then some (d / e) else Option.none
  | _, _ => Option.none

/-- The `pe_ratio` try-block: latest closing price divided by the most
recent quarter's EPS, `None` on any exception or zero EPS. -/
def computePE (latestPrice : ℚ) (q1 : PyVal) : Option ℚ :=
  match epsOf q1 with
  | some eps => if eps ≠ 0 then some (latestPrice / eps) else Option.none
  | Option.none => Option.none

/-- The latest-price try-block
`float(eod["stockprice"]["data"][-1]["close"])`: every exception is
caught and turned into "no metrics".  (Indexing `[-1]` into a truthy
non-list either raises or yields a one-character string on which the
subsequent `["close"]` subscript raises, so only genuine lists can
succeed.) -/
def computeLatestPrice (eodv : PyVal) : Option ℚ := do
  let sp ← pySubscriptOpt eodv kStockprice
  let d ← pySubscriptOpt sp kData
  match d with
  | .list xs => do
    let lastRow ← xs.getLast?
    let close ← pySubscriptOpt lastRow kClose
    pyFloat? close
  | _ => Option.none

/-- The `latest_revenue` expression
`float(Q1["revenue"]) if Q1.get("revenue") is not None else None` in the
result construction of `calculate_all`.  Unlike every other field it is
NOT wrapped in `try/except`: a present but non-floatable revenue makes
`float` raise and the raise escapes `calculate_all` (`.error ()` here).
A call of `.get` on a non-object would raise `AttributeError`, also
uncaught; it is unreachable because the quarter rows are objects. -/
def computeLatestRevenue (q1 : PyVal) : Except Unit (Option ℚ) :=
  match q1 with
  | .dict kvs =>
    match lookupKey kvs kRevenue with
    | Option.none => .ok Option.none
    | some PyVal.none => .ok Option.none
    | some v =>
      match pyFloat? v with
      | some q => .ok (some q)
      | Option.none => .error ()
  | _ => .error ()

/-- The five entries of the result dict of `calculate_all`, in source
order; `pe_ratio` and `debt_ratio` are renamed with a `_val` suffix,
everything else keeps its source name. -/
structure Metrics where
  pe_ratio_val : Option ℚ
  revenue_growth : Option ℚ
  net_income_ttm : Option ℚ
  debt_ratio_val : Option ℚ
  latest_revenue : Option ℚ
deriving DecidableEq

/-- Outcome of `Calculator.calculate_all`: an uncaught exception, the
explicit `None` ("no metrics"), or the metrics dict. -/
inductive CalcResult where
  | raised
  | noMetrics
  | metrics (m : Metrics)

/-- `Calculator.calculate_all(symbol)`, with the three decoded API
responses (income statement, balance sheet, end-of-day prices — in the
order the source requests them) passed as arguments; `Option.none`
stands for `_get` having returned `None`.  Every branch mirrors one
statement of the source:
* a falsy / missing response for any of the three is "no metrics";
* a `KeyError` in the nested statement extraction is caught → "no
  metrics", a `TypeError` there is not caught → raised;
* a malformed row list (non-object rows) raises in the comprehension;
* incomparable date keys raise in the sort;
* fewer than 4 quarters, no full-year row, or a failing latest-price
  block are "no metrics";
* the four ratio try-blocks each independently default to `None`;
* the `latest_revenue` expression can raise (see
  `computeLatestRevenue`). -/
def calculate_all (income balance eod : Option PyVal) : CalcResult :=
  match income with
  | Option.none => .noMetrics
  | some inc =>
    if !pyTruthy inc then .noMetrics
    else
      match extractStatementData inc kIncomeStatement with
      | .error .typeError => .raised
      | .error .keyError => .noMetrics
      | .ok incData =>
        match pyFilterRows isQuarterRow incData with
        | .error _ => .raised
        | .ok qrows =>
          match pySortByDateDesc qrows with
          | .error _ => .raised
          | .ok quarters =>
            match quarters with
            | q1 :: q2 :: q3 :: q4 :: _ =>
              let revGrowth := computeRevenueGrowth q1 q2
              let niTTM := computeNetIncomeTTM q1 q2 q3 q4
              match balance with
              | Option.none => .noMetrics
              | some bal =>
                if !pyTruthy bal then .noMetrics
                else
                  match extractStatementData bal kBalanceSheetStatement with
                  | .error .typeError => .raised
                  | .error .keyError => .noMetrics
                  | .ok bsData =>
                    match pyFilterRows isFYRow bsData with
                    | .error _ => .raised
                    | .ok fyrows =>
                      match pySortByDateDesc fyrows with
                      | .error _ => .raised
                      | .ok years =>
                        match years with
                        | [] => .noMetrics
                        | fy :: _ =>
                          let debtVal := computeDebt fy
                          match eod with
                          | Option.none => .noMetrics
                          | some ev =>
                            if !pyTruthy ev then .noMetrics
                            else
                              match pyContains ev kStockprice with
                              | .error _ => .raised
                              | .ok false => .noMetrics
                              | .ok true =>
                                match computeLatestPrice ev with
                                | Option.none => .noMetrics
                                | some latestPrice =>
                                  let peVal := computePE latestPrice q1
                                  match computeLatestRevenue q1 with
                                  | .error _ => .raised
                                  | .ok latestRev =>
                                    .metrics
                                      ⟨peVal, revGrowth, niTTM, debtVal,
                                        latestRev⟩
            | _ => .noMetrics

/-! ## API client (`api_client.py`) -/

/-- Outcome of one HTTP GET attempt: a network timeout, or a response
with a status code and (for status 200) the decoded JSON body —
`Option.none` standing for a body `response.json()` fails on. -/
inductive HttpAttempt where
  | timeout
  | response (status : Nat) (body : Option PyVal)

/-- Result of `FiindoAPI._get`: a decoded body, `None` ("no data"),
the `RuntimeError` raised on 401, or any other uncaught exception
(`raise_for_status` on an unexpected status, JSON decode failure). -/
inductive GetResult where
  | ok (v : PyVal)
  | noData
  | authError
  | raised

/-- `FIINDO_RETRY_STATUS_CODES` default. -/
def defaultRetrySet : List Nat := [429, 500]

/-- The retry loop of `_get`.  `attemptsPrev` mirrors the `attempts`
counter before the `attempts += 1` at the top of the loop body; `fuel`
is `max_retries + 1 - attemptsPrev`, a bound the loop itself enforces
(every path with `attempts > max_retries` returns), so the fuel-0
branch is unreachable from `apiGet`.  Branch order follows the source:
timeout check around the request, then 200, the retry set, 404, 401,
and `raise_for_status` for everything else. -/
def getAux (retrySet : List Nat) (maxRetries : Nat) (resp : Nat → HttpAttempt) :
    Nat → Nat → GetResult
  | _, 0 => .noData
  | attemptsPrev, fuel + 1 =>
    let attempts := attemptsPrev + 1
    match resp attempts with
    | .timeout =>
      if attempts > maxRetries then .noData
      else getAux retrySet maxRetries resp attempts fuel
    | .response status body =>
      if status = 200 then
        match body with
        | some v => .ok v
        | Option.none => .raised
      else if status ∈ retrySet then
        if attempts > maxRetries then .noData
        else getAux retrySet maxRetries resp attempts fuel
      else if status = 404 then .noData
      else if status = 401 then .authError
      else .raised

/-- `FiindoAPI._get(endpoint)`, with the outcome of the n-th attempt
supplied by `resp n` (attempts are numbered from 1). -/
def apiGet (retrySet : List Nat) (maxRetries : Nat)
    (resp : Nat → HttpAttempt) : GetResult :=
  getAux retrySet maxRetries resp 0 (maxRetries + 1)

/-- An attempt outcome `_get` reacts to by retrying: a network timeout
or a response whose status is in the configured retry set.  (A status of
200 is classified as success before the retry-set test, so it is
excluded.) -/
def retryableAttempt (retrySet : List Nat) : HttpAttempt → Prop
  | .timeout => True
  | .response s _ => s ∈ retrySet ∧ s ≠ 200

/-- `FiindoAPI.get_symbols`:
`data.get("symbols", []) if data else []` — a falsy body yields the
empty list, a truthy non-object raises (`.get` on it), and an exception
from `_get` propagates. -/
def get_symbols (r : GetResult) : Except Unit PyVal :=
  match r with
  | .noData => .ok (.list [])
  | .authError => .error ()
  | .raised => .error ()
  | .ok v =>
    if !pyTruthy v then .ok (.list [])
    else
      match v with
      | .dict kvs => .ok (lookupKeyD kvs kSymbols (.list []))
      | _ => .error ()

/-! ## Symbol fetcher (`fetcher.py`) -/

def kBanksInd : String := "Banks - Diversified"
def kSoftwareInd : String := "Software - Application"
def kElectronicsInd : String := "Consumer Electronics"

/-- The three target industries of `fetcher.py`. -/
def TARGET_INDUSTRIES : List String := [kBanksInd, kSoftwareInd, kElectronicsInd]

/-- The dict a retained worker returns: symbol, companyName, industry
and exchange from the profile (company and exchange may be absent or
any JSON value; the industry is always one of the targets). -/
structure TickerInfo where
  symbol : String
  company : Option PyVal
  industry : String
  exchange : Option PyVal

/-- Profile parsing inside `process_symbol`, after `_get` returned a
body.  All dereferencing happens inside the worker's
`except Exception` handler, so any raise (e.g. `.get` on a non-object)
drops the symbol; a missing or non-target industry drops it too. -/
def parseProfile (symbol : String) (v : PyVal) : Option TickerInfo :=
  if !pyTruthy v then Option.none
  else
    match v with
    | .dict kvs =>
      match lookupKeyD kvs kFundamentals (.dict []) with
      | .dict fkvs =>
        match lookupKeyD fkvs kProfile (.dict []) with
        | .dict pkvs =>
          let plist := lookupKeyD pkvs kData (.list [])
          if !pyTruthy plist then Option.none
          else
            match plist with
            | .list (info :: _) =>
              match info with
              | .dict ikvs =>
                match lookupKey ikvs kIndustry with
                | some (.str ind) =>
                  if ind ∈ TARGET_INDUSTRIES then
                    some ⟨symbol, lookupKey ikvs kCompanyName, ind,
                      lookupKey ikvs kExchange⟩
                  else Option.none
                | _ => Option.none
              | _ => Option.none
            | _ => Option.none
        | _ => Option.none
      | _ => Option.none
    | _ => Option.none

/-- The worker function `process_symbol` of
`SymbolFetcher.fetch_and_filter_symbols`, with the `/general` outcome
passed in.  "No data" is dropped by the `if not general` check; an
exception escaping `_get` — including the 401 `RuntimeError` — is
swallowed by the worker's `except Exception` and also drops the
symbol. -/
def process_symbol (symbol : String) (generalResult : GetResult) :
    Option TickerInfo :=
  match generalResult with
  | .ok v => parseProfile symbol v
  | .noData => Option.none
  | .authError => Option.none
  | .raised => Option.none

/-- The fan-out/fan-in of `fetch_and_filter_symbols`: each worker is a
pure function of its symbol (the per-symbol profile data is fixed for
the run and each worker owns a fresh API client), and `as_completed`
delivers the results in some completion order, a permutation of the
submitted symbol list.  The retained list is the drop-`None` collection
in that order.  The worker-pool size influences only which permutation
occurs, so it appears in no other way. -/
def fetch_and_filter_symbols (profiles : String → GetResult)
    (completionOrder : List String) : List TickerInfo :=
  completionOrder.filterMap (fun s => process_symbol s (profiles s))

/-! ## Persistence writer (`db_writer.py`, tables from `models.py`) -/

/-- A row of the `tickers` master table. -/
structure TickerRow where
  tid : Nat
  symbol : String
  company : Option String
  industry : Option String
  exchange : Option String

/-- A row of `ticker_stats` / `ticker_stats_history` (identical
columns; `stamp` is `calculated_at` resp. `created_at`). -/
structure TickerStatsRow where
  ticker_id : Nat
  vals : Metrics
  stamp : Nat
deriving DecidableEq

/-- A row of `industry_stats` / `industry_stats_history` (identical
columns; `stamp` is `calculated_at` resp. `created_at`). -/
structure IndustryStatsRow where
  industry : String
  avg_pe_val : Option ℚ
  avg_revenue_growth : Option ℚ
  sum_revenue : Option ℚ
  stamp : Nat
deriving DecidableEq

/-- The five relational tables. -/
structure DB where
  tickers : List TickerRow
  ticker_stats : List TickerStatsRow
  ticker_stats_history : List TickerStatsRow
  industry_stats : List IndustryStatsRow
  industry_stats_history : List IndustryStatsRow

/-- Effect of `db.execute(delete(TickerStats))`. -/
def deleteAllTickerStats (db : DB) : DB := { db with ticker_stats := [] }

/-- Effect of `db.execute(delete(IndustryStats))`. -/
def deleteAllIndustryStats (db : DB) : DB := { db with industry_stats := [] }

/-- `DBWriter.clear_current_tables`: both snapshot tables are emptied;
nothing else is touched. -/
def clear_current_tables (db : DB) : DB :=
  deleteAllIndustryStats (deleteAllTickerStats db)

/-- The committed states visible to another reader during
`clear_current_tables`: both DELETEs run in one transaction closed by
a single `commit()`, so only the initial and the final state are ever
committed. -/
def clearCommittedStates (db : DB) : List DB :=
  [db, clear_current_tables db]

/-- `DBWriter.save_ticker_stats(symbol, stats)` at commit time `now`.
The ticker lookup is `one_or_none` on the unique `symbol` column
(modelled as `find?`); on a miss the call logs and writes nothing.
Otherwise one snapshot row and one history row are inserted, built from
the same `stats` dict and the same `datetime.utcnow()` value, and
committed together. -/
def save_ticker_stats (db : DB) (symbol : String) (stats : Metrics)
    (now : Nat) : DB :=
  match db.tickers.find? (fun t => t.symbol == symbol) with
  | Option.none => db
  | some t =>
    { db with
      ticker_stats := db.ticker_stats ++ [⟨t.tid, stats, now⟩],
      ticker_stats_history := db.ticker_stats_history ++ [⟨t.tid, stats, now⟩] }

/-- `SELECT DISTINCT industry FROM tickers` with `None` filtered out,
as in `aggregate_industries`. -/
def industriesOf (tickers : List TickerRow) : List String :=
  (tickers.filterMap (fun t => t.industry)).dedup

/-- The join
`query(TickerStats).join(Ticker, ...).filter(Ticker.industry == industry)`:
every stats row of every ticker of the industry, once per matching
(ticker, stats) pair. -/
def joinStatsForIndustry (tickers : List TickerRow)
    (stats : List TickerStatsRow) (ind : String) : List TickerStatsRow :=
  (tickers.filter (fun t => t.industry == some ind)).flatMap
    (fun t => stats.filter (fun s => s.ticker_id == t.tid))

/-- The loop body of `DBWriter.aggregate_industries`: for each distinct
industry, skip it when the join is empty, otherwise build the snapshot
row and the history row (identical expressions in the source) from the
non-`None` values: mean P/E, mean revenue growth, summed latest
revenue — each `None` when no non-`None` value exists (`if valid_pe
else None` etc.). -/
def aggRowFor (tickers : List TickerRow) (stats : List TickerStatsRow)
    (now : Nat) (ind : String) : Option (IndustryStatsRow × IndustryStatsRow) :=
  let s := joinStatsForIndustry tickers stats ind
  if s.isEmpty then Option.none
  else
    let validPe := s.filterMap (fun r => r.vals.pe_ratio_val)
    let validRg := s.filterMap (fun r => r.vals.revenue_growth)
    let validRev := s.filterMap (fun r => r.vals.latest_revenue)
    let avgPe :=
      if validPe.isEmpty then Option.none
      else some (validPe.sum / (validPe.length : ℚ))
    let avgRg :=
      if validRg.isEmpty then Option.none
      else some (validRg.sum / (validRg.length : ℚ))
    let sumRev :=
      if validRev.isEmpty then Option.none else some validRev.sum
    some (⟨ind, avgPe, avgRg, sumRev, now⟩, ⟨ind, avgPe, avgRg, sumRev, now⟩)

/-- All (snapshot row, history row) pairs inserted by one call of
`aggregate_industries`, in industry order. -/
def aggregate_pairs (tickers : List TickerRow) (stats : List TickerStatsRow)
    (now : Nat) : List (IndustryStatsRow × IndustryStatsRow) :=
  (industriesOf tickers).filterMap (aggRowFor tickers stats now)

/-- `DBWriter.aggregate_industries` as a state transformer: all
snapshot rows and all history rows are inserted and committed together
at the end. -/
def aggregate_industries (db : DB) (now : Nat) : DB :=
  let pairs := aggregate_pairs db.tickers db.ticker_stats now
  { db with
    industry_stats := db.industry_stats ++ pairs.map Prod.fst,
    industry_stats_history := db.industry_stats_history ++ pairs.map Prod.snd }

/-! ## Claim-side definitions (from the spec's words, for C6) -/

/-- The simple (unweighted) mean of the spec. -/
def simpleMean (xs : List ℚ) : ℚ := xs.sum / (xs.length : ℚ)

/-- Mean of the non-null values as the amended C6 states it: null when
no non-null value exists. -/
def optMean (xs : List ℚ) : Option ℚ :=
  if xs = [] then Option.none else some (simpleMean xs)

/-- Sum of the non-null values as the amended C6 states it: null — not
zero — when no non-null value exists. -/
def optSum (xs : List ℚ) : Option ℚ :=
  if xs = [] then Option.none else some xs.sum

/-! ## Concrete example data

The spec's end-to-end example (§8): four quarterly income rows with
revenue `[100, 120, 150, 200]` oldest → newest, net income
`[10, 12, 15, 20]`, latest-quarter EPS `0.5`; one full-year balance
sheet with `totalDebt = 300`, `totalEquity = 150`; a price series
ending in close `50.0`.  Shapes mirror the repository's own test
fixtures (`tests/test_calculations.py`). -/

def mkIncRow (period date : String) (rev ni eps : ℚ) : PyVal :=
  .dict [(kPeriod, .str period), (kDate, .str date), (kRevenue, .num rev),
    (kNetIncome, .num ni), (kEps, .num eps)]

def exRowQ1 : PyVal := mkIncRow ("Q1") ("2024-03-31") 100 10 (1 / 4)
def exRowQ2 : PyVal := mkIncRow ("Q2") ("2024-06-30") 120 12 (3 / 10)
def exRowQ3 : PyVal := mkIncRow ("Q3") ("2024-09-30") 150 15 (2 / 5)
def exRowQ4 : PyVal := mkIncRow ("Q4") ("2024-12-31") 200 20 (1 / 2)

/-- The income rows, oldest → newest as in the spec's example. -/
def exIncomeRows : List PyVal := [exRowQ1, exRowQ2, exRowQ3, exRowQ4]

/-- Wrap a data row list into the nested
`fundamentals / financials / <stmt> / data` response shape. -/
def wrapStatement (stmt : String) (rows : List PyVal) : PyVal :=
  .dict [(kFundamentals,
    .dict [(kFinancials, .dict [(stmt, .dict [(kData, .list rows)])])])]

def exIncome : PyVal := wrapStatement kIncomeStatement exIncomeRows

def exRowFY : PyVal :=
  .dict [(kPeriod, .str kFY), (kDate, .str ("2024-12-31")),
    (kTotalDebt, .num 300), (kTotalEquity, .num 150)]

def exBalanceRows : List PyVal := [exRowFY]

def exBalance : PyVal := wrapStatement kBalanceSheetStatement exBalanceRows

def exEod : PyVal :=
  .dict [(kStockprice,
    .dict [(kData, .list [.dict [(kClose, .num 40)], .dict [(kClose, .num 50)]])])]

/-- The same income payload with the newest quarter's revenue replaced
by the non-numeric string `"abc"` — a per-field "non-numeric value"
failure in `latest_revenue` (and in `revenue_growth`, where it is
caught). -/
def exRowQ4Bad : PyVal :=
  .dict [(kPeriod, .str ("Q4")), (kDate, .str ("2024-12-31")),
    (kRevenue, .str ("abc")), (kNetIncome, .num 20), (kEps, .num (1 / 2))]

def exIncomeBadRows : List PyVal := [exRowQ1, exRowQ2, exRowQ3, exRowQ4Bad]

def exIncomeBad : PyVal := wrapStatement kIncomeStatement exIncomeBadRows

/-- A two-quarter income payload for the "fewer than 4 quarters"
half of C5. -/
def exIncomeShortRows : List PyVal := [exRowQ1, exRowQ2]

def exIncomeShort : PyVal := wrapStatement kIncomeStatement exIncomeShortRows

def exSymbolA : String := "AAA"
def exSymbolB : String := "BBB"

/-- A `/general` profile body whose industry is one of the targets. -/
def exProfileA : PyVal :=
  .dict [(kFundamentals,
    .dict [(kProfile,
      .dict [(kData,
        .list [.dict [(kIndustry, .str kBanksInd),
          (kCompanyName, .str ("Company A")), (kExchange, .str ("X"))]])])])]

/-- The ticker dict the fetcher retains for `exProfileA`. -/
def exTickerInfoA : TickerInfo :=
  ⟨exSymbolA, some (.str ("Company A")), kBanksInd, some (.str ("X"))⟩

/-- A `tickers` master row for symbol `AAA` in the banks industry. -/
def exTickerA : TickerRow :=
  ⟨1, exSymbolA, some ("Company A"), some kBanksInd, some ("X")⟩

/-- A metrics dict whose five fields are all `None`. -/
def allNullMetrics : Metrics :=
  ⟨Option.none, Option.none, Option.none, Option.none, Option.none⟩

/-- A `ticker_stats` row for `exTickerA` whose metric fields are all
`None`. -/
def exStatsNull : TickerStatsRow := ⟨1, allNullMetrics, 0⟩

/-- A small database: one ticker, empty stats and history tables, one
stale industry snapshot row. -/
def exDb : DB :=
  ⟨[exTickerA], [exStatsNull], [exStatsNull],
    [⟨kBanksInd, Option.none, Option.none, Option.none, 0⟩], []⟩

/-! ## Helper lemmas -/

theorem mem_insertByDateDesc {y x : PyVal} {l : List PyVal} :
    y ∈ insertByDateDesc x l ↔ y = x ∨ y ∈ l := by
  induction l with
  | nil => simp [insertByDateDesc]
  | cons z zs ih =>
    by_cases h : dateGeBool x z = true
    · simp [insertByDateDesc, h]
    · simp only [insertByDateDesc, h, if_neg, Bool.not_eq_true] at *
      simp [List.mem_cons, ih]
      tauto

theorem length_insertByDateDesc (x : PyVal) (l : List PyVal) :
    (insertByDateDesc x l).length = l.length + 1 := by
  induction l with
  | nil => rfl
  | cons z zs ih =>
    by_cases h : dateGeBool x z = true
    · simp [insertByDateDesc, h]
    · simp [insertByDateDesc, h, ih]

theorem mem_sortByDateDesc {y : PyVal} {l : List PyVal} :
    y ∈ sortByDateDesc l ↔ y ∈ l := by
  induction l with
  | nil => simp [sortByDateDesc]
  | cons z zs ih =>
    simp [sortByDateDesc, mem_insertByDateDesc, ih]

theorem length_sortByDateDesc (l : List PyVal) :
    (sortByDateDesc l).length = l.length := by
  induction l with
  | nil => rfl
  | cons z zs ih =>
    simp [sortByDateDesc, length_insertByDateDesc, ih]

theorem pairwiseComparable_of_strKeys {l : List PyVal}
    (h : ∀ r ∈ l, ∃ s, dateKeyOf r = .str s) :
    pairwiseComparableBy l = true := by
  induction l with
  | nil => rfl
  | cons x xs ih =>
    simp only [pairwiseComparableBy, Bool.and_eq_true, List.all_eq_true]
    constructor
    · intro y hy
      obtain ⟨sx, hsx⟩ := h x (List.mem_cons_self _ _)
      obtain ⟨sy, hsy⟩ := h y (List.mem_cons_of_mem _ hy)
      simp [hsx, hsy, pyCompare]
    · exact ih (fun r hr => h r (List.mem_cons_of_mem _ hr))

theorem pySortByDateDesc_ok {l : List PyVal}
    (h : ∀ r ∈ l, ∃ s, dateKeyOf r = .str s) :
    pySortByDateDesc l = .ok (sortByDateDesc l) := by
  simp [pySortByDateDesc, pairwiseComparable_of_strKeys h]

theorem rowsFilter_mem_dict {pred : List (String × PyVal) → Bool}
    {rows out : List PyVal} (h : rowsFilter pred rows = .ok out) :
    ∀ r ∈ out, ∃ kvs, r = .dict kvs ∧ pred kvs = true := by
  induction rows generalizing out with
  | nil =>
    simp only [rowsFilter] at h
    cases h
    simp
  | cons x rest ih =>
    match x with
    | .none | .num _ | .str _ | .list _ => simp [rowsFilter] at h
    | .dict kvs =>
      simp only [rowsFilter] at h
      cases htail : rowsFilter pred rest with
      | error e => rw [htail] at h; simp [Bind.bind, Except.bind] at h
      | ok tail =>
        rw [htail] at h
        simp only [Bind.bind, Except.bind, Except.ok.injEq] at h
        subst h
        intro r hr
        by_cases hp : pred kvs = true
        · rw [if_pos hp] at hr
          rcases List.mem_cons.mp hr with hr | hr
          · exact ⟨kvs, hr, hp⟩
          · exact ih htail r hr
        · rw [if_neg hp] at hr
          exact ih htail r hr

theorem pyFilterRows_mem_dict {pred : List (String × PyVal) → Bool}
    {d : PyVal} {out : List PyVal} (h : pyFilterRows pred d = .ok out) :
    ∀ r ∈ out, ∃ kvs, r = .dict kvs ∧ pred kvs = true := by
  match d with
  | .none | .num _ => simp [pyFilterRows] at h
  | .list rows => exact rowsFilter_mem_dict h
  | .str s =>
    simp only [pyFilterRows] at h
    by_cases hs : s.isEmpty = true
    · rw [if_pos hs] at h; cases h; simp
    · rw [if_neg hs] at h; cases h
  | .dict kvs =>
    simp only [pyFilterRows] at h
    by_cases hs : kvs.isEmpty = true
    · rw [if_pos hs] at h; cases h; simp
    · rw [if_neg hs] at h; cases h

theorem exists_four_cons {α : Type} {l : List α} (h : 4 ≤ l.length) :
    ∃ a b c d t, l = a :: b :: c :: d :: t := by
  match l with
  | [] => simp at h
  | [a] => simp at h
  | [a, b] => simp at h
  | [a, b, c] => simp at h
  | a :: b :: c :: d :: t => exact ⟨a, b, c, d, t, rfl⟩

theorem computeLatestRevenue_of_revenueOf {kvs : List (String × PyVal)}
    {q : ℚ} (h : revenueOf (.dict kvs) = some q) :
    computeLatestRevenue (.dict kvs) = .ok (some q) := by
  simp only [revenueOf, pySubscriptOpt, pySubscript, Option.bind_eq_bind] at h
  cases hl : lookupKey kvs kRevenue with
  | none => rw [hl] at h; simp [Except.toOption] at h
  | some v =>
    rw [hl] at h
    simp only [Except.toOption, Option.some_bind] at h
    match v with
    | PyVal.none => simp [pyFloat?] at h
    | PyVal.num q0 =>
      simp only [computeLatestRevenue, hl, h]
    | PyVal.str s =>
      simp only [computeLatestRevenue, hl, h]
    | PyVal.list xs => simp [pyFloat?] at h
    | PyVal.dict kvs2 => simp [pyFloat?] at h

/-- Central walk through `calculate_all`: once the mandatory
preconditions hold — truthy, well-formed income and balance responses,
at least 4 quarterly rows, at least one full-year row, all sort keys
strings, a truthy EOD response containing `stockprice` and a parseable
last close — control reaches the final result construction, whose five
fields are the independent per-field computations; only the unguarded
`latest_revenue` expression can still raise. -/
theorem calcAll_reaches
    {inc bal ev incData bsData : PyVal}
    {qrows fyrows : List PyVal} {p : ℚ}
    (hIncT : pyTruthy inc = true)
    (hIncE : extractStatementData inc kIncomeStatement = .ok incData)
    (hQ : pyFilterRows isQuarterRow incData = .ok qrows)
    (hQd : ∀ r ∈ qrows, ∃ s, dateKeyOf r = .str s)
    (hQlen : 4 ≤ qrows.length)
    (hBalT : pyTruthy bal = true)
    (hBalE : extractStatementData bal kBalanceSheetStatement = .ok bsData)
    (hF : pyFilterRows isFYRow bsData = .ok fyrows)
    (hFd : ∀ r ∈ fyrows, ∃ s, dateKeyOf r = .str s)
    (hFne : fyrows ≠ [])
    (hEvT : pyTruthy ev = true)
    (hEvC : pyContains ev kStockprice = .ok true)
    (hP : computeLatestPrice ev = some p) :
    ∃ q1 q2 q3 q4 qt fy ft,
      sortByDateDesc qrows = q1 :: q2 :: q3 :: q4 :: qt ∧
      sortByDateDesc fyrows = fy :: ft ∧
      calculate_all (some inc) (some bal) (some ev) =
        (match computeLatestRevenue q1 with
         | .error _ => CalcResult.raised
         | .ok lr =>
           CalcResult.metrics
             ⟨computePE p q1, computeRevenueGrowth q1 q2,
               computeNetIncomeTTM q1 q2 q3 q4, computeDebt fy, lr⟩) := by
  have hsq : 4 ≤ (sortByDateDesc qrows).length := by
    rw [length_sortByDateDesc]; exact hQlen
  obtain ⟨q1, q2, q3, q4, qt, hq⟩ := exists_four_cons hsq
  have hsf : sortByDateDesc fyrows ≠ [] := by
    intro hnil
    have hl := length_sortByDateDesc fyrows
    rw [hnil] at hl
    exact hFne (List.length_eq_zero.mp hl.symm)
  obtain ⟨fy, ft, hf⟩ : ∃ fy ft, sortByDateDesc fyrows = fy :: ft := by
    cases hsort : sortByDateDesc fyrows with
    | nil => exact absurd hsort hsf
    | cons fy ft => exact ⟨fy, ft, rfl⟩
  refine ⟨q1, q2, q3, q4, qt, fy, ft, hq, hf, ?_⟩
  simp only [calculate_all, hIncT, hIncE, hQ, pySortByDateDesc_ok hQd, hq,
    hBalT, hBalE, hF, pySortByDateDesc_ok hFd, hf, hEvT, hEvC, hP,
    Bool.not_true, Bool.false_eq_true, if_false]

/-- The retry loop of `_get` ends in `None` when every attempt it can
reach yields a retryable outcome.  `fuel + attemptsPrev = maxRetries + 1`
is the loop invariant tying the fuel to the attempt counter. -/
theorem getAux_noData {retrySet : List Nat} {maxRetries : Nat}
    {resp : Nat → HttpAttempt} :
    ∀ fuel attemptsPrev, fuel + attemptsPrev = maxRetries + 1 →
      (∀ n, attemptsPrev < n → n ≤ maxRetries + 1 →
        retryableAttempt retrySet (resp n)) →
      getAux retrySet maxRetries resp attemptsPrev fuel = .noData := by
  intro fuel
  induction fuel with
  | zero => intro ap _ _; rfl
  | succ f ih =>
    intro ap hsum hr
    have hn := hr (ap + 1) (Nat.lt_succ_self ap) (by omega)
    show (match resp (ap + 1) with
      | .timeout =>
        if ap + 1 > maxRetries then GetResult.noData
        else getAux retrySet maxRetries resp (ap + 1) f
      | .response status body =>
        if status = 200 then
          match body with
          | some v => GetResult.ok v
          | Option.none => GetResult.raised
        else if status ∈ retrySet then
          if ap + 1 > maxRetries then GetResult.noData
          else getAux retrySet maxRetries resp (ap + 1) f
        else if status = 404 then GetResult.noData
        else if status = 401 then GetResult.authError
        else GetResult.raised) = GetResult.noData
    cases hresp : resp (ap + 1) with
    | timeout =>
      by_cases hstop : ap + 1 > maxRetries
      · simp [hstop]
      · simp only [if_neg hstop]
        exact ih (ap + 1) (by omega) (fun n h1 h2 => hr n (by omega) h2)
    | response status body =>
      rw [hresp] at hn
      obtain ⟨hmem, hne⟩ := hn
      simp only [if_neg hne, if_pos hmem]
      by_cases hstop : ap + 1 > maxRetries
      · simp [hstop]
      · simp only [if_neg hstop]
        exact ih (ap + 1) (by omega) (fun n h1 h2 => hr n (by omega) h2)

/-! ## Claim C1 -/

/-- C1, counterexample.  The input satisfies all four mandatory
preconditions of the claim — income and balance statements retrievable
and well-formed, 4 quarterly rows, 1 full-year row, a nonempty price
series with parseable last close — and the newest quarter carries the
non-numeric revenue value `"abc"`.  The claim says this per-field
failure is caught and nulls only `latest_revenue`; in the code the
`latest_revenue` expression is outside every `try` block, so
`float("abc")` raises and `calculate_all` raises instead of returning a
record. -/
theorem C1_counterexample :
    extractStatementData exIncomeBad kIncomeStatement =
      .ok (.list exIncomeBadRows) ∧
    pyFilterRows isQuarterRow (.list exIncomeBadRows) = .ok exIncomeBadRows ∧
    exIncomeBadRows.length = 4 ∧
    extractStatementData exBalance kBalanceSheetStatement =
      .ok (.list exBalanceRows) ∧
    pyFilterRows isFYRow (.list exBalanceRows) = .ok exBalanceRows ∧
    exBalanceRows.length = 1 ∧
    computeLatestPrice exEod = some 50 ∧
    calculate_all (some exIncomeBad) (some exBalance) (some exEod) =
      .raised :=
  ⟨rfl, rfl, rfl, rfl, rfl, rfl, rfl, rfl⟩

/-- C1 as amended: under the four mandatory preconditions,
`calculate_all` reaches the result construction; derivation failures in
`revenue_growth`, `net_income_ttm`, `debt_ratio` and `pe_ratio` are
caught independently and null only their own field (each field is the
independent per-field function of its own inputs), and `latest_revenue`
is null when the newest quarter's revenue is absent or `None` — but a
present, non-floatable revenue value there makes `calculate_all` raise
(`computeLatestRevenue` is the unguarded expression). -/
theorem C1_amended_thm
    {inc bal ev incData bsData : PyVal}
    {qrows fyrows : List PyVal} {p : ℚ}
    (hIncT : pyTruthy inc = true)
    (hIncE : extractStatementData inc kIncomeStatement = .ok incData)
    (hQ : pyFilterRows isQuarterRow incData = .ok qrows)
    (hQd : ∀ r ∈ qrows, ∃ s, dateKeyOf r = .str s)
    (hQlen : 4 ≤ qrows.length)
    (hBalT : pyTruthy bal = true)
    (hBalE : extractStatementData bal kBalanceSheetStatement = .ok bsData)
    (hF : pyFilterRows isFYRow bsData = .ok fyrows)
    (hFd : ∀ r ∈ fyrows, ∃ s, dateKeyOf r = .str s)
    (hFne : fyrows ≠ [])
    (hEvT : pyTruthy ev = true)
    (hEvC : pyContains ev kStockprice = .ok true)
    (hP : computeLatestPrice ev = some p) :
    ∃ q1 q2 q3 q4 qt fy ft,
      sortByDateDesc qrows = q1 :: q2 :: q3 :: q4 :: qt ∧
      sortByDateDesc fyrows = fy :: ft ∧
      calculate_all (some inc) (some bal) (some ev) =
        (match computeLatestRevenue q1 with
         | .error _ => CalcResult.raised
         | .ok lr =>
           CalcResult.metrics
             ⟨computePE p q1, computeRevenueGrowth q1 q2,
               computeNetIncomeTTM q1 q2 q3 q4, computeDebt fy, lr⟩) :=
  calcAll_reaches hIncT hIncE hQ hQd hQlen hBalT hBalE hF hFd hFne hEvT
    hEvC hP

/-- C1 witness: the amended theorem applied to the spec's end-to-end
example payload. -/
theorem C1_witness :
    ∃ q1 q2 q3 q4 qt fy ft,
      sortByDateDesc exIncomeRows = q1 :: q2 :: q3 :: q4 :: qt ∧
      sortByDateDesc exBalanceRows = fy :: ft ∧
      calculate_all (some exIncome) (some exBalance) (some exEod) =
        (match computeLatestRevenue q1 with
         | .error _ => CalcResult.raised
         | .ok lr =>
           CalcResult.metrics
             ⟨computePE 50 q1, computeRevenueGrowth q1 q2,
               computeNetIncomeTTM q1 q2 q3 q4, computeDebt fy, lr⟩) :=
  C1_amended_thm rfl rfl rfl
    (by intro r hr; fin_cases hr <;> exact ⟨_, rfl⟩)
    (by norm_num [exIncomeRows])
    rfl rfl rfl
    (by intro r hr; fin_cases hr; exact ⟨_, rfl⟩)
    (List.cons_ne_nil _ _)
    rfl rfl rfl

/-! ## Claim C2 -/

/-- C2: for every endpoint, retry set and maximum retry count, if every
attempt the loop can make (attempts `1 .. max_retries + 1`) yields a
retryable outcome — a retry-set status or a network timeout — then
`_get` returns `None` ("no data") instead of raising; in particular a
status-429 response repeated `max_retries + 1` times yields `None`.
The hypothesis constrains only the first `max_retries + 1` attempts, so
the attempt count is bounded by construction. -/
theorem C2_thm (retrySet : List Nat) (maxRetries : Nat)
    (resp : Nat → HttpAttempt)
    (h : ∀ n, 1 ≤ n → n ≤ maxRetries + 1 →
      retryableAttempt retrySet (resp n)) :
    apiGet retrySet maxRetries resp = .noData :=
  getAux_noData (maxRetries + 1) 0 (by omega)
    (fun n h1 h2 => h n (by omega) h2)

/-- C2 witness: a status-429 response on every attempt with the default
retry set `{429, 500}` and `max_retries = 3` yields `None`. -/
theorem C2_witness :
    apiGet defaultRetrySet 3 (fun _ => .response 429 (some (.dict []))) =
      .noData :=
  C2_thm defaultRetrySet 3 _
    (fun n _ _ => ⟨by norm_num [defaultRetrySet], by norm_num⟩)

/-! ## Claim C3 -/

/-- C3: on the spec's end-to-end example — revenues
`[100, 120, 150, 200]` oldest → newest, net incomes `[10, 12, 15, 20]`,
latest EPS `0.5`, full-year `totalDebt = 300` / `totalEquity = 150`,
price series ending in `50.0` — `calculate_all` returns exactly
`revenue_growth = (200 - 150) / 150`, `net_income_ttm = 57`,
`debt_ratio = 2`, `pe_ratio = 100`, `latest_revenue = 200`. -/
theorem C3_thm :
    calculate_all (some exIncome) (some exBalance) (some exEod) =
      .metrics ⟨some 100, some ((200 - 150) / 150), some 57, some 2,
        some 200⟩ := by
  have h0 : calculate_all (some exIncome) (some exBalance) (some exEod) =
      .metrics ⟨computePE 50 exRowQ4, computeRevenueGrowth exRowQ4 exRowQ3,
        computeNetIncomeTTM exRowQ4 exRowQ3 exRowQ2 exRowQ1,
        computeDebt exRowFY, some 200⟩ := rfl
  have h1 : computePE 50 exRowQ4 = some 100 := by
    show (if (1 / 2 : ℚ) ≠ 0 then some ((50 : ℚ) / (1 / 2))
      else Option.none) = some 100
    norm_num
  have h2 : computeRevenueGrowth exRowQ4 exRowQ3 =
      some ((200 - 150) / 150) := by
    show (if (150 : ℚ) ≠ 0 then some (((200 : ℚ) - 150) / 150)
      else Option.none) = some ((200 - 150) / 150)
    norm_num
  have h3 : computeNetIncomeTTM exRowQ4 exRowQ3 exRowQ2 exRowQ1 =
      some 57 := by
    show some ((20 : ℚ) + 15 + 12 + 10) = some 57
    norm_num
  have h4 : computeDebt exRowFY = some 2 := by
    show (if (150 : ℚ) ≠ 0 then some ((300 : ℚ) / 150)
      else Option.none) = some 2
    norm_num
  rw [h0, h1, h2, h3, h4]

/-! ## Claim C4 -/

/-- C4, counterexample.  The API client does raise on a 401 response
(`authError`), but the claim that "no component downgrades this to a
per-symbol skip" is false: the fetcher's `/general` worker wraps the
whole lookup in `except Exception`, so the 401 `RuntimeError` is
swallowed, the symbol is dropped like any "no data" symbol, and the
run continues instead of aborting. -/
theorem C4_counterexample :
    apiGet defaultRetrySet 3 (fun _ => .response 401 (some (.dict []))) =
      .authError ∧
    process_symbol exSymbolA .authError = Option.none ∧
    fetch_and_filter_symbols (fun _ => .authError) [exSymbolA] = [] :=
  ⟨rfl, rfl, rfl⟩

/-- C4 as amended: `_get` raises the authentication error on any 401
response (for any retry configuration not containing 401), and the
bare `/symbols` call propagates it, aborting the run — but a 401 inside
a `/general` worker is caught by the worker's blanket `except
Exception` and downgraded to skipping that symbol. -/
theorem C4_amended_thm :
    (∀ (retrySet : List Nat) (maxRetries : Nat) (resp : Nat → HttpAttempt)
      (b : Option PyVal), resp 1 = .response 401 b →
      (401 : Nat) ∉ retrySet →
      apiGet retrySet maxRetries resp = .authError) ∧
    get_symbols .authError = .error () ∧
    (∀ s, process_symbol s .authError = Option.none) := by
  refine ⟨?_, rfl, fun s => rfl⟩
  intro retrySet maxRetries resp b h1 hnot
  show (match resp (0 + 1) with
    | .timeout =>
      if 0 + 1 > maxRetries then GetResult.noData
      else getAux retrySet maxRetries resp (0 + 1) maxRetries
    | .response status body =>
      if status = 200 then
        match body with
        | some v => GetResult.ok v
        | Option.none => GetResult.raised
      else if status ∈ retrySet then
        if 0 + 1 > maxRetries then GetResult.noData
        else getAux retrySet maxRetries resp (0 + 1) maxRetries
      else if status = 404 then GetResult.noData
      else if status = 401 then GetResult.authError
      else GetResult.raised) = GetResult.authError
  simp only [Nat.zero_add, h1]
  rw [if_neg (by norm_num : ¬(401 = 200)), if_neg hnot,
    if_neg (by norm_num : ¬(401 = 404))]
  simp

/-- C4 witness: the amended theorem at a concrete 401 run. -/
theorem C4_witness :
    apiGet defaultRetrySet 0 (fun _ => .response 401 Option.none) =
      .authError ∧
    process_symbol exSymbolB .authError = Option.none :=
  ⟨C4_amended_thm.1 defaultRetrySet 0 _ Option.none rfl
    (by norm_num [defaultRetrySet]),
   C4_amended_thm.2.2 exSymbolB⟩

/-! ## Claim C5 -/

/-- C5: `calculate_all` keeps only the income rows whose period label
begins with `"Q"` and sorts them descending by date; with exactly 4
such rows (well-formed, with nonzero revenues, numeric net incomes and
a nonzero latest EPS), 1 full-year balance-sheet row (numeric debt,
nonzero numeric equity) and a nonempty price series with parseable
close, it returns a record with all five fields populated; with fewer
than 4 quarterly rows it returns `None` regardless of the balance-sheet
and price inputs. -/
theorem C5_thm :
    (∀ (inc bal ev incData bsData : PyVal) (qrows fyrows : List PyVal)
      (p : ℚ),
      pyTruthy inc = true →
      extractStatementData inc kIncomeStatement = .ok incData →
      pyFilterRows isQuarterRow incData = .ok qrows →
      (∀ r ∈ qrows, ∃ s, dateKeyOf r = .str s) →
      qrows.length = 4 →
      (∀ r ∈ qrows, ∃ q, revenueOf r = some q ∧ q ≠ 0) →
      (∀ r ∈ qrows, (niOf r).isSome = true) →
      (∀ r ∈ qrows, ∃ e, epsOf r = some e ∧ e ≠ 0) →
      pyTruthy bal = true →
      extractStatementData bal kBalanceSheetStatement = .ok bsData →
      pyFilterRows isFYRow bsData = .ok fyrows →
      (∀ r ∈ fyrows, ∃ s, dateKeyOf r = .str s) →
      fyrows.length = 1 →
      (∀ r ∈ fyrows, ∃ d e, totalDebtOf r = some d ∧
        totalEquityOf r = some e ∧ e ≠ 0) →
      pyTruthy ev = true →
      pyContains ev kStockprice = .ok true →
      computeLatestPrice ev = some p →
      ∃ m, calculate_all (some inc) (some bal) (some ev) = .metrics m ∧
        m.pe_ratio_val.isSome = true ∧ m.revenue_growth.isSome = true ∧
        m.net_income_ttm.isSome = true ∧ m.debt_ratio_val.isSome = true ∧
        m.latest_revenue.isSome = true) ∧
    (∀ (inc incData : PyVal) (qrows : List PyVal),
      pyTruthy inc = true →
      extractStatementData inc kIncomeStatement = .ok incData →
      pyFilterRows isQuarterRow incData = .ok qrows →
      (∀ r ∈ qrows, ∃ s, dateKeyOf r = .str s) →
      qrows.length < 4 →
      ∀ bal ev, calculate_all (some inc) bal ev = .noMetrics) := by
  constructor
  · intro inc bal ev incData bsData qrows fyrows p hIncT hIncE hQ hQd hQlen
      hQrev hQni hQeps hBalT hBalE hF hFd hFlen hFdebt hEvT hEvC hP
    obtain ⟨q1, q2, q3, q4, qt, fy, ft, hq, hf, hcalc⟩ :=
      calcAll_reaches hIncT hIncE hQ hQd (by omega) hBalT hBalE hF hFd
        (by intro hnil; rw [hnil] at hFlen; simp at hFlen) hEvT hEvC hP
    have hmem : ∀ r, r ∈ sortByDateDesc qrows → r ∈ qrows :=
      fun r hr => mem_sortByDateDesc.mp hr
    have hq1m : q1 ∈ qrows := hmem q1 (by rw [hq]; simp)
    have hq2m : q2 ∈ qrows := hmem q2 (by rw [hq]; simp)
    have hq3m : q3 ∈ qrows := hmem q3 (by rw [hq]; simp)
    have hq4m : q4 ∈ qrows := hmem q4 (by rw [hq]; simp)
    have hfym : fy ∈ fyrows := mem_sortByDateDesc.mp (by rw [hf]; simp)
    obtain ⟨r1, hr1, hr1ne⟩ := hQrev q1 hq1m
    obtain ⟨r2, hr2, hr2ne⟩ := hQrev q2 hq2m
    obtain ⟨e1, he1, he1ne⟩ := hQeps q1 hq1m
    obtain ⟨n1, hn1⟩ := Option.isSome_iff_exists.mp (hQni q1 hq1m)
    obtain ⟨n2, hn2⟩ := Option.isSome_iff_exists.mp (hQni q2 hq2m)
    obtain ⟨n3, hn3⟩ := Option.isSome_iff_exists.mp (hQni q3 hq3m)
    obtain ⟨n4, hn4⟩ := Option.isSome_iff_exists.mp (hQni q4 hq4m)
    obtain ⟨dv, eqv, hdv, heqv, heqvne⟩ := hFdebt fy hfym
    obtain ⟨kvs1, hkvs1, _⟩ := pyFilterRows_mem_dict hQ q1 hq1m
    have hlr : computeLatestRevenue q1 = .ok (some r1) := by
      rw [hkvs1] at hr1 ⊢
      exact computeLatestRevenue_of_revenueOf hr1
    refine ⟨⟨computePE p q1, computeRevenueGrowth q1 q2,
      computeNetIncomeTTM q1 q2 q3 q4, computeDebt fy, some r1⟩,
      ?_, ?_, ?_, ?_, ?_, rfl⟩
    · rw [hcalc, hlr]
    · simp [computePE, he1, he1ne]
    · simp [computeRevenueGrowth, hr1, hr2, hr2ne]
    · simp [computeNetIncomeTTM, hn1, hn2, hn3, hn4]
    · simp [computeDebt, hdv, heqv, heqvne]
  · intro inc incData qrows hIncT hIncE hQ hQd hQlen bal ev
    have hlen : (sortByDateDesc qrows).length < 4 := by
      rw [length_sortByDateDesc]; exact hQlen
    simp only [calculate_all, hIncT, hIncE, hQ, pySortByDateDesc_ok hQd,
      Bool.not_true, Bool.false_eq_true, if_false]
    rcases hs : sortByDateDesc qrows with _ | ⟨a, _ | ⟨b, _ | ⟨c, _ | ⟨d, t⟩⟩⟩⟩
    · rfl
    · rfl
    · rfl
    · rfl
    · rw [hs] at hlen; simp only [List.length_cons] at hlen; omega

/-- C5 witness: both halves at concrete inputs — the end-to-end example
for the populated record, a two-quarter payload for the "fewer than 4"
half. -/
theorem C5_witness :
    (∃ m, calculate_all (some exIncome) (some exBalance) (some exEod) =
      .metrics m ∧
      m.pe_ratio_val.isSome = true ∧ m.revenue_growth.isSome = true ∧
      m.net_income_ttm.isSome = true ∧ m.debt_ratio_val.isSome = true ∧
      m.latest_revenue.isSome = true) ∧
    calculate_all (some exIncomeShort) (some exBalance) (some exEod) =
      .noMetrics :=
  ⟨C5_thm.1 exIncome exBalance exEod (.list exIncomeRows)
    (.list exBalanceRows) exIncomeRows exBalanceRows 50
    rfl rfl rfl
    (by intro r hr; fin_cases hr <;> exact ⟨_, rfl⟩)
    rfl
    (by intro r hr; fin_cases hr <;> exact ⟨_, rfl, by norm_num⟩)
    (by intro r hr; fin_cases hr <;> rfl)
    (by intro r hr; fin_cases hr <;> exact ⟨_, rfl, by norm_num⟩)
    rfl rfl rfl
    (by intro r hr; fin_cases hr; exact ⟨_, rfl⟩)
    rfl
    (by intro r hr; fin_cases hr; exact ⟨_, _, rfl, rfl, by norm_num⟩)
    rfl rfl rfl,
   C5_thm.2 exIncomeShort (.list exIncomeShortRows) exIncomeShortRows
    rfl rfl rfl
    (by intro r hr; fin_cases hr <;> exact ⟨_, rfl⟩)
    (by decide)
    (some exBalance) (some exEod)⟩

/-! ## Claim C6 -/

theorem ite_isEmpty_eq_optMean (xs : List ℚ) :
    (if xs.isEmpty = true then Option.none
      else some (xs.sum / (xs.length : ℚ))) = optMean xs := by
  cases xs with
  | nil => simp [optMean]
  | cons a l => simp [optMean, simpleMean]

theorem ite_isEmpty_eq_optSum (xs : List ℚ) :
    (if xs.isEmpty = true then Option.none else some xs.sum) = optSum xs := by
  cases xs with
  | nil => simp [optSum]
  | cons a l => simp [optSum]

/-- What one successful loop iteration of `aggregate_industries`
produces: the join is nonempty, the snapshot row carries the
means/sum-of-non-null values (null when no non-null value exists), and
the history row equals the snapshot row. -/
theorem aggRowFor_some {T : List TickerRow} {S : List TickerStatsRow}
    {now : Nat} {ind : String} {pr : IndustryStatsRow × IndustryStatsRow}
    (h : aggRowFor T S now ind = some pr) :
    joinStatsForIndustry T S ind ≠ [] ∧
    pr.1 = ⟨ind,
      optMean ((joinStatsForIndustry T S ind).filterMap
        (fun r => r.vals.pe_ratio_val)),
      optMean ((joinStatsForIndustry T S ind).filterMap
        (fun r => r.vals.revenue_growth)),
      optSum ((joinStatsForIndustry T S ind).filterMap
        (fun r => r.vals.latest_revenue)),
      now⟩ ∧
    pr.2 = pr.1 := by
  by_cases hemp : (joinStatsForIndustry T S ind).isEmpty = true
  · simp [aggRowFor, hemp] at h
  · have hne : joinStatsForIndustry T S ind ≠ [] := by
      intro hnil
      rw [hnil] at hemp
      exact hemp rfl
    simp only [aggRowFor] at h
    rw [if_neg hemp] at h
    have hpr := (Option.some.inj h).symm
    subst hpr
    refine ⟨hne, ?_, rfl⟩
    simp only [ite_isEmpty_eq_optMean, ite_isEmpty_eq_optSum]

theorem mem_industriesOf_of_join_ne_nil {T : List TickerRow}
    {S : List TickerStatsRow} {ind : String}
    (h : joinStatsForIndustry T S ind ≠ []) : ind ∈ industriesOf T := by
  have hfil : (T.filter (fun t => t.industry == some ind)) ≠ [] := by
    intro hnil
    apply h
    simp [joinStatsForIndustry, hnil]
  obtain ⟨t, ht⟩ := List.exists_mem_of_ne_nil _ hfil
  have ⟨htm, hind⟩ := List.mem_filter.mp ht
  rw [beq_iff_eq] at hind
  exact List.mem_dedup.mpr (List.mem_filterMap.mpr ⟨t, htm, hind⟩)

theorem aggKeys_sublist (T : List TickerRow) (S : List TickerStatsRow)
    (now : Nat) (L : List String) :
    ((L.filterMap (aggRowFor T S now)).map
      (fun pr => pr.1.industry)).Sublist L := by
  induction L with
  | nil => simp
  | cons x L ih =>
    rw [List.filterMap_cons]
    cases hx : aggRowFor T S now x with
    | none => exact ih.cons x
    | some pr =>
      rw [List.map_cons]
      have hindx : pr.1.industry = x := by rw [(aggRowFor_some hx).2.1]
      rw [hindx]
      exact ih.cons₂ x

/-- C6, counterexample.  One ticker in the banks industry with a single
metrics row whose fields are all null: the industry has a matching
metrics row, the sum of its non-null latest-revenue values is the empty
sum `0`, but the written row carries null — not `0` — in
`sum_revenue`. -/
theorem C6_counterexample :
    joinStatsForIndustry [exTickerA] [exStatsNull] kBanksInd =
      [exStatsNull] ∧
    ((joinStatsForIndustry [exTickerA] [exStatsNull] kBanksInd).filterMap
      (fun r => r.vals.latest_revenue)).sum = 0 ∧
    (aggregate_pairs [exTickerA] [exStatsNull] 0).map
      (fun pr => pr.1.sum_revenue) = [Option.none] :=
  ⟨rfl, rfl, rfl⟩

/-- C6 as amended: per industry with at least one matching metrics row,
aggregation writes exactly one row, carrying the simple mean of the
non-null P/E values and of the non-null revenue-growth values (null
when no non-null value exists) and the sum of the non-null
latest-revenue values — written as null rather than zero when no
non-null value exists; an industry with zero matching rows is skipped
entirely. -/
theorem C6_amended_thm (T : List TickerRow) (S : List TickerStatsRow)
    (now : Nat) :
    (∀ pr ∈ aggregate_pairs T S now,
      joinStatsForIndustry T S pr.1.industry ≠ [] ∧
      pr.1.avg_pe_val = optMean ((joinStatsForIndustry T S
        pr.1.industry).filterMap (fun r => r.vals.pe_ratio_val)) ∧
      pr.1.avg_revenue_growth = optMean ((joinStatsForIndustry T S
        pr.1.industry).filterMap (fun r => r.vals.revenue_growth)) ∧
      pr.1.sum_revenue = optSum ((joinStatsForIndustry T S
        pr.1.industry).filterMap (fun r => r.vals.latest_revenue)) ∧
      pr.1.stamp = now) ∧
    (∀ ind, joinStatsForIndustry T S ind ≠ [] →
      ∃ pr ∈ aggregate_pairs T S now, pr.1.industry = ind) ∧
    ((aggregate_pairs T S now).map (fun pr => pr.1.industry)).Nodup := by
  refine ⟨?_, ?_, ?_⟩
  · intro pr hpr
    obtain ⟨ind, _, heq⟩ := List.mem_filterMap.mp hpr
    obtain ⟨hne, hfst, _⟩ := aggRowFor_some heq
    have hindeq : pr.1.industry = ind := by rw [hfst]
    rw [hindeq, hfst]
    exact ⟨hne, rfl, rfl, rfl, rfl⟩
  · intro ind hne
    have hmem : ind ∈ industriesOf T := mem_industriesOf_of_join_ne_nil hne
    have hemp : ¬((joinStatsForIndustry T S ind).isEmpty = true) := by
      intro habs
      exact hne (List.isEmpty_iff.mp habs)
    cases hagg : aggRowFor T S now ind with
    | none =>
      exfalso
      simp only [aggRowFor] at hagg
      rw [if_neg hemp] at hagg
      exact absurd hagg (by simp)
    | some pr =>
      refine ⟨pr, List.mem_filterMap.mpr ⟨ind, hmem, hagg⟩, ?_⟩
      rw [(aggRowFor_some hagg).2.1]
  · exact List.Nodup.sublist (aggKeys_sublist T S now (industriesOf T))
      (List.nodup_dedup _)

/-- C6 witness: the amended theorem at the one-ticker, all-null input —
part (a) at the single produced pair, part (b) at the banks industry. -/
theorem C6_witness :
    (joinStatsForIndustry [exTickerA] [exStatsNull]
      ((⟨kBanksInd, Option.none, Option.none, Option.none, 7⟩,
        ⟨kBanksInd, Option.none, Option.none, Option.none, 7⟩) :
        IndustryStatsRow × IndustryStatsRow).1.industry ≠ [] ∧
     (Option.none : Option ℚ) = optMean ((joinStatsForIndustry [exTickerA]
       [exStatsNull] kBanksInd).filterMap (fun r => r.vals.pe_ratio_val)) ∧
     (Option.none : Option ℚ) = optMean ((joinStatsForIndustry [exTickerA]
       [exStatsNull] kBanksInd).filterMap (fun r => r.vals.revenue_growth)) ∧
     (Option.none : Option ℚ) = optSum ((joinStatsForIndustry [exTickerA]
       [exStatsNull] kBanksInd).filterMap (fun r => r.vals.latest_revenue)) ∧
     (7 : Nat) = 7) ∧
    (∃ pr ∈ aggregate_pairs [exTickerA] [exStatsNull] 7,
      pr.1.industry = kBanksInd) :=
  ⟨(C6_amended_thm [exTickerA] [exStatsNull] 7).1
    (⟨kBanksInd, Option.none, Option.none, Option.none, 7⟩,
      ⟨kBanksInd, Option.none, Option.none, Option.none, 7⟩)
    (List.mem_singleton_self _),
   (C6_amended_thm [exTickerA] [exStatsNull] 7).2.1 kBanksInd
    (List.cons_ne_nil _ _)⟩

/-! ## Claim C7 -/

/-- C7: every persisting call writes its snapshot row and its history
row with identical content.  For `save_ticker_stats` (when the ticker
exists) the two inserted rows are the very same record — same metric
fields, same timestamp; for `aggregate_industries` every produced
(snapshot, history) pair consists of two equal rows stamped with the
call's timestamp.  (A `save_ticker_stats` call on an unknown symbol
persists nothing, so the claim is vacuous there.) -/
theorem C7_thm :
    (∀ (db : DB) (symbol : String) (stats : Metrics) (now : Nat)
      (t : TickerRow),
      db.tickers.find? (fun tk => tk.symbol == symbol) = some t →
      (save_ticker_stats db symbol stats now).ticker_stats =
        db.ticker_stats ++ [⟨t.tid, stats, now⟩] ∧
      (save_ticker_stats db symbol stats now).ticker_stats_history =
        db.ticker_stats_history ++ [⟨t.tid, stats, now⟩]) ∧
    (∀ (T : List TickerRow) (S : List TickerStatsRow) (now : Nat)
      (pr : IndustryStatsRow × IndustryStatsRow),
      pr ∈ aggregate_pairs T S now → pr.1 = pr.2 ∧ pr.1.stamp = now) := by
  constructor
  · intro db symbol stats now t hfind
    constructor <;> simp [save_ticker_stats, hfind]
  · intro T S now pr hpr
    obtain ⟨ind, _, heq⟩ := List.mem_filterMap.mp hpr
    obtain ⟨_, hfst, hsnd⟩ := aggRowFor_some heq
    refine ⟨hsnd.symm, ?_⟩
    rw [hfst]

/-- C7 witness: the saved pair for the example database and the
aggregated pair for the all-null input. -/
theorem C7_witness :
    ((save_ticker_stats exDb exSymbolA allNullMetrics 5).ticker_stats =
      exDb.ticker_stats ++ [⟨1, allNullMetrics, 5⟩] ∧
     (save_ticker_stats exDb exSymbolA allNullMetrics 5).ticker_stats_history =
      exDb.ticker_stats_history ++ [⟨1, allNullMetrics, 5⟩]) ∧
    (((⟨kBanksInd, Option.none, Option.none, Option.none, 7⟩,
       ⟨kBanksInd, Option.none, Option.none, Option.none, 7⟩) :
       IndustryStatsRow × IndustryStatsRow).1 =
      ((⟨kBanksInd, Option.none, Option.none, Option.none, 7⟩,
       ⟨kBanksInd, Option.none, Option.none, Option.none, 7⟩) :
       IndustryStatsRow × IndustryStatsRow).2 ∧
     ((⟨kBanksInd, Option.none, Option.none, Option.none, 7⟩,
       ⟨kBanksInd, Option.none, Option.none, Option.none, 7⟩) :
       IndustryStatsRow × IndustryStatsRow).1.stamp = 7) :=
  ⟨C7_thm.1 exDb exSymbolA allNullMetrics 5 exTickerA rfl,
   C7_thm.2 [exTickerA] [exStatsNull] 7 _ (List.mem_singleton_self _)⟩

/-! ## Claim C8 -/

/-- C8: `clear_current_tables` empties both snapshot tables, leaves the
ticker master table and both history tables unchanged, and — the two
DELETEs sharing one commit — every committed state visible during the
call is either the initial state or has both snapshot tables empty
(never one emptied without the other). -/
theorem C8_thm (db : DB) :
    (clear_current_tables db).ticker_stats = [] ∧
    (clear_current_tables db).industry_stats = [] ∧
    (clear_current_tables db).tickers = db.tickers ∧
    (clear_current_tables db).ticker_stats_history =
      db.ticker_stats_history ∧
    (clear_current_tables db).industry_stats_history =
      db.industry_stats_history ∧
    ∀ s ∈ clearCommittedStates db,
      s = db ∨ (s.ticker_stats = [] ∧ s.industry_stats = []) := by
  refine ⟨rfl, rfl, rfl, rfl, rfl, ?_⟩
  intro s hs
  simp only [clearCommittedStates, List.mem_cons, List.not_mem_nil,
    or_false] at hs
  rcases hs with rfl | rfl
  · exact Or.inl rfl
  · exact Or.inr ⟨rfl, rfl⟩

/-- C8 witness: the frame-and-commit statement at the example
database. -/
theorem C8_witness :
    clear_current_tables exDb = exDb ∨
    ((clear_current_tables exDb).ticker_stats = [] ∧
      (clear_current_tables exDb).industry_stats = []) :=
  (C8_thm exDb).2.2.2.2.2 (clear_current_tables exDb)
    (by simp [clearCommittedStates])

/-! ## Claim C9 -/

/-- C9: with the per-symbol profile data fixed, each worker is a pure
function of its symbol, and the worker-pool size influences only the
order in which `as_completed` yields results — some permutation of the
submitted list.  For any two completion orders that are permutations of
each other the retained set is the same, so it is independent of pool
size and completion order. -/
theorem C9_thm (profiles : String → GetResult) (order1 order2 : List String)
    (hperm : order1.Perm order2) :
    ∀ t, t ∈ fetch_and_filter_symbols profiles order1 ↔
      t ∈ fetch_and_filter_symbols profiles order2 :=
  fun _ => (hperm.filterMap _).mem_iff

/-- C9 witness: two completion orders of a two-symbol universe retain
the same instrument. -/
theorem C9_witness :
    exTickerInfoA ∈ fetch_and_filter_symbols
      (fun s => if s == exSymbolA then .ok exProfileA else .noData)
      [exSymbolA, exSymbolB] ↔
    exTickerInfoA ∈ fetch_and_filter_symbols
      (fun s => if s == exSymbolA then .ok exProfileA else .noData)
      [exSymbolB, exSymbolA] :=
  C9_thm _ _ _ (List.Perm.swap exSymbolB exSymbolA []) exTickerInfoA

/-! ## Claim C10 -/

/-- C10: a 200 response whose decoded body is falsy (e.g. the empty
object) is indistinguishable from a 404 "no data" at every consumer:
`get_symbols` returns the empty list, the fetcher worker drops the
symbol, and `calculate_all` returns `None` — in each case exactly the
value produced when `_get` returns `None`. -/
theorem C10_thm (v : PyVal) (hfalsy : pyTruthy v = false) :
    get_symbols (.ok v) = .ok (.list []) ∧
    get_symbols (.ok v) = get_symbols .noData ∧
    (∀ s, process_symbol s (.ok v) = Option.none ∧
      process_symbol s (.ok v) = process_symbol s .noData) ∧
    (∀ bal ev, calculate_all (some v) bal ev = .noMetrics ∧
      calculate_all (some v) bal ev = calculate_all Option.none bal ev) := by
  refine ⟨?_, ?_, fun s => ⟨?_, ?_⟩, fun bal ev => ⟨?_, ?_⟩⟩
  · simp [get_symbols, hfalsy]
  · simp [get_symbols, hfalsy]
  · simp [process_symbol, parseProfile, hfalsy]
  · simp [process_symbol, parseProfile, hfalsy]
  · simp [calculate_all, hfalsy]
  · simp [calculate_all, hfalsy]

/-- C10 witness: the empty JSON object at all three consumers. -/
theorem C10_witness :
    get_symbols (.ok (.dict [])) = .ok (.list []) ∧
    process_symbol exSymbolA (.ok (.dict [])) = Option.none ∧
    calculate_all (some (.dict [])) (some exBalance) (some exEod) =
      .noMetrics :=
  ⟨(C10_thm (.dict []) rfl).1,
   ((C10_thm (.dict []) rfl).2.2.1 exSymbolA).1,
   ((C10_thm (.dict []) rfl).2.2.2 (some exBalance) (some exEod)).1⟩

end Fiindo
